import Mathlib

namespace PamirSAM

/-!
Verification of the Distiller-SAM firmware (revision V0.2.3) against its
natural-language specification.  The Python sources are shallowly embedded:
machine bytes are `Nat` values kept below 256 (masks `&&& 0xFF` appear exactly
where the source masks), fixed 4-byte packets are `List Nat`, and fallible
parsers return `Option`.  Each definition mirrors one function of
`pamir_uart_protocols.py`, `uart_handler.py`, `neopixel_controller.py`,
`main.py` or `eink_driver_sam.py`, keeping the source's name.
-/

/-! ## Packet codec (`pamir_uart_protocols.py`)

`calculate_crc8` iterates over the data bytes; for each byte it XORs the byte
into the running CRC and then performs eight shift rounds (polynomial 0x07,
masked to 8 bits after every round), exactly as in
`PamirUartProtocols.calculate_crc8`. -/

/-- One round of the inner CRC8 loop: shift left, XOR 0x07 when the MSB was
set, and mask to 8 bits (the source masks with `crc &= 0xFF` each round). -/
def crc8Round (crc : Nat) : Nat :=
  if crc &&& 0x80 ≠ 0 then ((crc <<< 1) ^^^ 0x07) &&& 0xFF
  else (crc <<< 1) &&& 0xFF

/-- Fold one data byte into the CRC: XOR it in, then run eight rounds. -/
def crc8Byte (crc b : Nat) : Nat := crc8Round^[8] (crc ^^^ b)

/-- CRC8 of a byte list with initial value 0x00 (`calculate_crc8`). -/
def calculate_crc8 (data : List Nat) : Nat := data.foldl crc8Byte 0x00

/-- CRC8 checksum of the three packet payload bytes (`calculate_checksum`). -/
def calculate_checksum (type_flags data0 data1 : Nat) : Nat :=
  calculate_crc8 [type_flags, data0, data1]

/-- Build the 4-byte packet `[type_flags, data0, data1, checksum]`
(`create_packet`; `struct.pack "BBBB"` requires each argument to be a byte,
which callers guarantee). -/
def create_packet (type_flags data0 data1 : Nat) : List Nat :=
  [type_flags, data0, data1, calculate_checksum type_flags data0 data1]

/-- Validate a packet: exactly four bytes whose checksum matches the CRC8 of
the first three; returns the parsed tuple on success (`validate_packet`). -/
def validate_packet (packet_bytes : List Nat) : Option (Nat × Nat × Nat × Nat) :=
  match packet_bytes with
  | [type_flags, data0, data1, checksum] =>
      if checksum = calculate_checksum type_flags data0 data1 then
        some (type_flags, data0, data1, checksum)
      else none
  | _ => none

/-! ### Injectivity of the CRC8 byte map

The eight-round map `crc8Round^[8]` is a permutation of the byte range; we
certify this with its explicit inverse table, which lets every single-byte
mutation of a packet be detected. -/

/-- Inverse table of `crc8Round^[8]` on bytes: entry `y` holds the unique
byte `x` with `crc8Round^[8] x = y`. -/
def crc8RoundsInv : List Nat :=
  [0, 217, 181, 108, 109, 180, 216, 1, 218, 3, 111, 182, 183, 110, 2, 219,
   179, 106, 6, 223, 222, 7, 107, 178, 105, 176, 220, 5, 4, 221, 177, 104,
   97, 184, 212, 13, 12, 213, 185, 96, 187, 98, 14, 215, 214, 15, 99, 186,
   210, 11, 103, 190, 191, 102, 10, 211, 8, 209, 189, 100, 101, 188, 208, 9,
   194, 27, 119, 174, 175, 118, 26, 195, 24, 193, 173, 116, 117, 172, 192, 25,
   113, 168, 196, 29, 28, 197, 169, 112, 171, 114, 30, 199, 198, 31, 115, 170,
   163, 122, 22, 207, 206, 23, 123, 162, 121, 160, 204, 21, 20, 205, 161, 120,
   16, 201, 165, 124, 125, 164, 200, 17, 202, 19, 127, 166, 167, 126, 18, 203,
   131, 90, 54, 239, 238, 55, 91, 130, 89, 128, 236, 53, 52, 237, 129, 88,
   48, 233, 133, 92, 93, 132, 232, 49, 234, 51, 95, 134, 135, 94, 50, 235,
   226, 59, 87, 142, 143, 86, 58, 227, 56, 225, 141, 84, 85, 140, 224, 57,
   81, 136, 228, 61, 60, 229, 137, 80, 139, 82, 62, 231, 230, 63, 83, 138,
   65, 152, 244, 45, 44, 245, 153, 64, 155, 66, 46, 247, 246, 47, 67, 154,
   242, 43, 71, 158, 159, 70, 42, 243, 40, 241, 157, 68, 69, 156, 240, 41,
   32, 249, 149, 76, 77, 148, 248, 33, 250, 35, 79, 150, 151, 78, 34, 251,
   147, 74, 38, 255, 254, 39, 75, 146, 73, 144, 252, 37, 36, 253, 145, 72]

/-! ## LED packets (`pamir_uart_protocols.py`, `neopixel_controller.py`,
`main.py`) -/

/-- Parsed LED command as returned by `parse_led_packet` (the Python dict). -/
structure LedData where
  execute : Bool
  led_id : Nat
  led_mode : Nat
  color : Nat × Nat × Nat
  time_value : Nat
  delay_ms : Nat
  deriving DecidableEq

/-- The `timing_map` dictionary of `parse_led_packet` (`.get` default 100). -/
def timing_map (time_value : Nat) : Nat :=
  if time_value = 0 then 100
  else if time_value = 1 then 200
  else if time_value = 2 then 500
  else if time_value = 3 then 1000
  else 100

/-- Build an LED control packet (`create_led_packet`): `type_flags` is
`[001][E][LED_ID]`, `data0 = RRRRGGGG`, `data1 = BBBBMMTT`. -/
def create_led_packet (led_id : Nat) (execute : Bool)
    (mode r4 g4 b4 time_value : Nat) : List Nat :=
  let tf0 := 0x20
  let tf1 := if execute then tf0 ||| 0x10 else tf0
  let type_flags := tf1 ||| (led_id &&& 0x0F)
  let data0 := ((r4 &&& 0x0F) <<< 4) ||| (g4 &&& 0x0F)
  let data1 := (((b4 &&& 0x0F) <<< 4) ||| ((mode &&& 0x03) <<< 2)) ||| (time_value &&& 0x03)
  create_packet type_flags data0 data1

/-- Parse an LED packet (`parse_led_packet`): validate, check the kind bits,
and extract execute flag, led id, colour nibbles, mode and timing. -/
def parse_led_packet (packet_bytes : List Nat) : Option LedData :=
  match validate_packet packet_bytes with
  | none => none
  | some (type_flags, data0, data1, _) =>
    if type_flags &&& 0xE0 ≠ 0x20 then none
    else
      let execute := type_flags &&& 0x10 != 0
      let led_id := type_flags &&& 0x0F
      let r4 := (data0 >>> 4) &&& 0x0F
      let g4 := data0 &&& 0x0F
      let b4 := (data1 >>> 4) &&& 0x0F
      let led_mode := (data1 >>> 2) &&& 0x03
      let time_value := data1 &&& 0x03
      some ⟨execute, led_id, led_mode, (r4, g4, b4), time_value, timing_map time_value⟩

/-- LED completion acknowledgment (`create_led_completion_packet`):
`data0 = 0xFF`, `data1` the clamped sequence length. -/
def create_led_completion_packet (led_id sequence_length : Nat) : List Nat :=
  create_packet ((0x20 ||| 0x10) ||| (led_id &&& 0x0F)) 0xFF (min 255 (max 0 sequence_length))

/-- LED error acknowledgment (`create_led_error_packet`): `data0 = 0xFE`,
`data1` the error code clamped to 1..255. -/
def create_led_error_packet (led_id error_code : Nat) : List Nat :=
  create_packet ((0x20 ||| 0x10) ||| (led_id &&& 0x0F)) 0xFE (min 255 (max 1 error_code))

/-- Scale a 4-bit colour triple to 8 bits per channel
(`NeoPixelController.rgb444_to_rgb888`: multiply each nibble by 17). -/
def rgb444_to_rgb888 (rgb : Nat × Nat × Nat) : Nat × Nat × Nat :=
  ((rgb.1 &&& 0x0F) * 17, (rgb.2.1 &&& 0x0F) * 17, (rgb.2.2 &&& 0x0F) * 17)

/-- One entry of the NeoPixel animation queue as built by
`NeoPixelController.add_to_queue`; note the executed step delay is
`(time_value + 1) * 100` milliseconds. -/
structure QueuedCommand where
  led_id : Nat
  mode : Nat
  color : Nat × Nat × Nat
  time_value : Nat
  delay_ms : Nat
  deriving DecidableEq

/-- Build the queue entry exactly as `add_to_queue` does. -/
def add_to_queue (led_id mode : Nat) (color_data : Nat × Nat × Nat)
    (time_value : Nat) : QueuedCommand :=
  { led_id := led_id, mode := mode, color := rgb444_to_rgb888 color_data,
    time_value := time_value, delay_ms := (time_value + 1) * 100 }

/-- Number of physical LEDs on the strip (`NeoPixelController num_leds=7`). -/
def num_leds : Nat := 7

/-- Result of `main.process_led_packet`: the commands pushed into the
NeoPixel animation queue, and the acknowledgment packets emitted (the
completion-callback ack submitted by the animation run, if any, together with
the inline ack written when the execute flag is set; the relative emission
order of the two is scheduler-dependent and not asserted by any claim). -/
structure LedProcessResult where
  queued : List QueuedCommand
  acks : List (List Nat)
  deriving DecidableEq

/-- Model of `main.process_led_packet`. Static mode sets the colour directly
(no queue, no callback). Blink/fade/rainbow stop the running animation, queue
one command and execute the queue immediately; `_execute_animation_immediate`
then runs the single command and fires the completion callback with count 1,
which emits one completion ack for the hardware index. Independently, when
the execute flag is set, the handler writes one more completion ack for the
full `led_id`. Rainbow passes colour `(0,0,0)` as in the source. -/
def process_led_packet (packet_data : List Nat) : LedProcessResult :=
  match parse_led_packet packet_data with
  | none => ⟨[], []⟩
  | some led =>
    let hardware_index := led.led_id % num_leds
    let inlineAck : List (List Nat) :=
      if led.execute then [create_led_completion_packet led.led_id 1] else []
    match led.led_mode with
    | 0 => ⟨[], inlineAck⟩
    | 1 => ⟨[add_to_queue hardware_index 1 led.color led.time_value],
            create_led_completion_packet hardware_index 1 :: inlineAck⟩
    | 2 => ⟨[add_to_queue hardware_index 2 led.color led.time_value],
            create_led_completion_packet hardware_index 1 :: inlineAck⟩
    | 3 => ⟨[add_to_queue hardware_index 3 (0, 0, 0) led.time_value],
            create_led_completion_packet hardware_index 1 :: inlineAck⟩
    | _ => ⟨[], inlineAck⟩

/-! ## System packets (`pamir_uart_protocols.py`, `main.py`) -/

/-- Parsed system command (`parse_system_packet`). -/
inductive SystemCommand where
  | ping
  | pong
  | versionRequest
  | reset (reset_type : Nat)
  | unknown (raw_command data0 data1 : Nat)
  deriving DecidableEq

/-- The packet `create_system_ping_packet` builds: `C0 00 00` plus CRC8. -/
def create_system_ping_packet : List Nat := create_packet 0xC0 0x00 0x00

/-- The packet `create_system_pong_packet` builds: `C0 01 00` plus CRC8. -/
def create_system_pong_packet : List Nat := create_packet 0xC0 0x01 0x00

/-- Parse a system packet (`parse_system_packet`). -/
def parse_system_packet (packet_bytes : List Nat) : Option SystemCommand :=
  match validate_packet packet_bytes with
  | none => none
  | some (type_flags, data0, data1, _) =>
    if type_flags &&& 0xE0 ≠ 0xC0 then none
    else
      let command := type_flags &&& 0x1F
      if command = 0x00 then some .ping
      else if command = 0x01 then some .pong
      else if command = 0x02 then some .versionRequest
      else if command = 0x03 then some (.reset data0)
      else some (.unknown command data0 data1)

/-- Model of `main.process_system_packet`: the list of packets written back.
Only the ping branch replies, and its `send_ping_response` task writes the
packet built by `create_system_ping_packet` (not the pong packet). -/
def process_system_packet (packet_data : List Nat) : List (List Nat) :=
  match parse_system_packet packet_data with
  | some .ping => [create_system_ping_packet]
  | _ => []

/-! ## Power packets (`pamir_uart_protocols.py`, `main.py`,
`power_manager.py`) -/

/-- Parsed power command (`parse_power_packet`). -/
inductive PowerCommand where
  | query (power_state status_flags : Nat)
  | setState (power_state flags : Nat)
  | sleepCmd (delay_seconds sleep_flags : Nat)
  | shutdown (shutdown_mode reason_code : Nat)
  | requestMetrics (metric_mask reserved : Nat)
  | metricsResponse (command value : Nat)
  | unknown (raw_command data0 data1 : Nat)
  deriving DecidableEq

/-- Parse a power packet (`parse_power_packet`): validate, check the kind
bits, then dispatch on the 5-bit command. -/
def parse_power_packet (packet_bytes : List Nat) : Option PowerCommand :=
  match validate_packet packet_bytes with
  | none => none
  | some (type_flags, data0, data1, _) =>
    if type_flags &&& 0xE0 ≠ 0x40 then none
    else
      let command := type_flags &&& 0x1F
      if command = 0x00 then some (.query data0 data1)
      else if command = 0x01 then some (.setState data0 data1)
      else if command = 0x02 then some (.sleepCmd data0 data1)
      else if command = 0x03 then some (.shutdown data0 data1)
      else if command = 0x1F then some (.requestMetrics data0 data1)
      else if command = 0x10 ∨ command = 0x11 ∨ command = 0x12 ∨ command = 0x13 then
        some (.metricsResponse command (data0 ||| (data1 <<< 8)))
      else some (.unknown command data0 data1)

/-- The four cached metrics returned by `PowerManager.get_all_metrics`
(values parametrised; the handler's emissions depend only on them). -/
structure PowerMetrics where
  current_ma : Nat
  battery_percent : Nat
  temperature_0_1c : Nat
  voltage_mv : Nat
  deriving DecidableEq

/-- Metrics reply packet (`create_power_metrics_packet_rp2040_to_som`):
little-endian 16-bit value, `data0` the low byte, `data1` the high byte. -/
def create_power_metrics_packet_rp2040_to_som (metric_type value_16bit : Nat) : List Nat :=
  create_packet (0x40 ||| (metric_type &&& 0x1F)) (value_16bit &&& 0xFF)
    ((value_16bit >>> 8) &&& 0xFF)

/-- Status reply packet (`create_power_status_packet_rp2040_to_som`). -/
def create_power_status_packet_rp2040_to_som (power_state status_flags : Nat) : List Nat :=
  create_packet (0x40 ||| 0x00) power_state status_flags

/-- The packets written by one run of `execute_power_command` in
`main.process_power_packet`: queries and sleeps reply nothing, set-state and
shutdown send one status packet, and `request_metrics` sends the four metric
packets back-to-back in the order current (0x10), battery (0x11),
temperature (0x12), voltage (0x13). -/
def execute_power_command (metrics : PowerMetrics) (cmd : PowerCommand) : List (List Nat) :=
  match cmd with
  | .query _ _ => []
  | .setState s _ => [create_power_status_packet_rp2040_to_som s 0x00]
  | .sleepCmd _ _ => []
  | .shutdown m _ => [create_power_status_packet_rp2040_to_som 0x00 m]
  | .requestMetrics _ _ =>
      [create_power_metrics_packet_rp2040_to_som 0x10 metrics.current_ma,
       create_power_metrics_packet_rp2040_to_som 0x11 metrics.battery_percent,
       create_power_metrics_packet_rp2040_to_som 0x12 metrics.temperature_0_1c,
       create_power_metrics_packet_rp2040_to_som 0x13 metrics.voltage_mv]
  | .metricsResponse _ _ => []
  | .unknown _ _ _ => []

/-- Result of `main.process_power_packet`: the packets written by the inline
call to `execute_power_command`, and the packets that the additionally
submitted HIGH-priority task manager copy of the same closure writes when it
runs. -/
structure PowerProcessResult where
  inlineSent : List (List Nat)
  taskSent : List (List Nat)
  deriving DecidableEq

/-- Model of `main.process_power_packet`: the handler executes the power
command immediately and also submits the identical closure to the task
manager, so the command's emissions occur once inline and once more when the
submitted task executes. -/
def process_power_packet (metrics : PowerMetrics) (packet_data : List Nat) :
    PowerProcessResult :=
  match parse_power_packet packet_data with
  | none => ⟨[], []⟩
  | some cmd => ⟨execute_power_command metrics cmd, execute_power_command metrics cmd⟩

/-! ## Display bus ownership (`main.py` boot code and `eink_display_task`,
`eink_driver_sam.py`)

The two relevant hardware facts are the level of the `einkMux` pin
(`machine.Pin 22`; high means the MCU drives the panel, low routes it to the
host) and whether the MCU's e-ink SPI pins are initialized
(`machine.SPI(1, ...)` in `einkDSP_SAM.__init__` / `re_init`, torn down to
high-impedance inputs in `de_init`).  The boot flow is straight-line code, so
we embed it as the sequence of atomic pin/SPI actions it performs, in source
order, and take the reachable states to be every state along that sequence.
Both exits of the task (the normal release path and the asset-load `OSError`
path) perform the same two final actions `de_init(); einkMux.low()`, in that
order, so they produce the same state sequence. -/

/-- The two modelled hardware facts. -/
structure EinkBusState where
  mux : Bool
  spiOn : Bool
  deriving DecidableEq

/-- Atomic actions of the boot/display flow that touch the mux or the SPI. -/
inductive EinkAction where
  | muxHigh
  | muxLow
  | spiSetup
  | spiTeardown
  | drawFrame
  deriving DecidableEq

/-- Effect of one action on the bus state. -/
def applyEinkAction (s : EinkBusState) : EinkAction → EinkBusState
  | .muxHigh => { s with mux := true }
  | .muxLow => { s with mux := false }
  | .spiSetup => { s with spiOn := true }
  | .spiTeardown => { s with spiOn := false }
  | .drawFrame => s

/-- The action sequence of the firmware run, in source order: module init
drives `einkMux.low()`; `eink_display_task` drives `einkMux.high()`, builds
`einkDSP_SAM()` (initializing SPI), runs the animation loop (frame draws
leave both facts unchanged), then on release — or after the `OSError` handler
for missing assets — calls `eink.de_init()` followed by `einkMux.low()`. -/
def einkTaskActions : List EinkAction :=
  [.muxLow, .muxHigh, .spiSetup, .drawFrame, .drawFrame, .spiTeardown, .muxLow]

/-- Every state the firmware passes through, starting from power-on
(mux low, SPI uninitialized). -/
def einkReachableStates : List EinkBusState :=
  einkTaskActions.scanl applyEinkAction ⟨false, false⟩

/-! ## UART handler (`uart_handler.py`)

The receive ring is the fixed 1024-byte `rx_buffer` with write index
`buffer_head`, read index `buffer_tail` and fill level `buffer_count`; the
frame synchronizer keeps a sync state (the source's strings SEARCHING /
SYNCED / RECOVERING become an inductive type) plus the consecutive
valid/invalid counters and the statistics counters used by the claims. -/

/-- Frame synchronization states. -/
inductive SyncState where
  | searching
  | synced
  | recovering
  deriving DecidableEq

/-- State of a `UartHandler` (time-stamp fields and the externally supplied
`uart`/`debug` objects are not modelled; debug logging does not change any
modelled field). -/
structure UartState where
  rxBuffer : List Nat
  bufferHead : Nat
  bufferTail : Nat
  bufferCount : Nat
  syncState : SyncState
  consecutiveValid : Nat
  consecutiveInvalid : Nat
  bufferOverflows : Nat
  syncLosses : Nat
  packetsProcessed : Nat
  validPackets : Nat
  invalidPackets : Nat
  deriving DecidableEq

/-- Buffer capacity (`MAX_BUFFER_SIZE`). -/
def MAX_BUFFER_SIZE : Nat := 1024

/-- Packet size (`PACKET_SIZE`). -/
def PACKET_SIZE : Nat := 4

/-- Search window for frame synchronization (`SYNC_SEARCH_LIMIT`). -/
def SYNC_SEARCH_LIMIT : Nat := 64

/-- Freshly constructed handler (`UartHandler.__init__`). -/
def initialUartState : UartState :=
  { rxBuffer := List.replicate MAX_BUFFER_SIZE 0,
    bufferHead := 0, bufferTail := 0, bufferCount := 0,
    syncState := .searching, consecutiveValid := 0, consecutiveInvalid := 0,
    bufferOverflows := 0, syncLosses := 0,
    packetsProcessed := 0, validPackets := 0, invalidPackets := 0 }

/-- Forced flush (`_force_buffer_flush`): reset the ring and re-enter
SEARCHING with cleared counters. -/
def force_buffer_flush (st : UartState) : UartState :=
  { st with bufferHead := 0, bufferTail := 0, bufferCount := 0,
            syncState := .searching, consecutiveValid := 0, consecutiveInvalid := 0 }

/-- One loop iteration of `_add_to_buffer`: on overflow bump the counter and
flush, then store the byte at the head and advance head and count. -/
def addByteToBuffer (st : UartState) (b : Nat) : UartState :=
  let st :=
    if st.bufferCount ≥ MAX_BUFFER_SIZE then
      force_buffer_flush { st with bufferOverflows := st.bufferOverflows + 1 }
    else st
  { st with rxBuffer := st.rxBuffer.set st.bufferHead b,
            bufferHead := (st.bufferHead + 1) % MAX_BUFFER_SIZE,
            bufferCount := st.bufferCount + 1 }

/-- Push a byte string into the ring (`_add_to_buffer`). -/
def add_to_buffer (st : UartState) (data : List Nat) : UartState :=
  data.foldl addByteToBuffer st

/-- Peek up to `num_bytes` bytes from the front of the ring
(`_get_from_buffer`). -/
def get_from_buffer (st : UartState) (num_bytes : Nat) : List Nat :=
  let n := min num_bytes st.bufferCount
  (List.range n).map fun i => st.rxBuffer.getD ((st.bufferTail + i) % MAX_BUFFER_SIZE) 0

/-- Drop up to `num_bytes` bytes from the front of the ring
(`_consume_from_buffer`). -/
def consume_from_buffer (st : UartState) (num_bytes : Nat) : UartState :=
  let n := min num_bytes st.bufferCount
  { st with bufferTail := (st.bufferTail + n) % MAX_BUFFER_SIZE,
            bufferCount := st.bufferCount - n }

/-- Peek `num_bytes` bytes at an offset from the front, or nothing when the
request runs past the fill level (`_get_from_buffer_at_offset`). -/
def get_from_buffer_at_offset (st : UartState) (offset num_bytes : Nat) : List Nat :=
  if offset + num_bytes > st.bufferCount then []
  else (List.range num_bytes).map fun i =>
    st.rxBuffer.getD ((st.bufferTail + offset + i) % MAX_BUFFER_SIZE) 0

/-- CRC-only packet check (`_is_valid_packet_fast`). -/
def is_valid_packet_fast (packet_data : List Nat) : Bool :=
  packet_data.length = 4 && (calculate_crc8 (packet_data.take 3) == packet_data.getD 3 0)

/-- Search the first `SYNC_SEARCH_LIMIT` offsets for a CRC-valid 4-byte
window (`_find_packet_boundary`; the source's -1 becomes `none`). -/
def find_packet_boundary (st : UartState) : Option Nat :=
  if st.bufferCount < PACKET_SIZE then none
  else
    let searchLimit := min SYNC_SEARCH_LIMIT (st.bufferCount - PACKET_SIZE + 1)
    (List.range searchLimit).find? fun offset =>
      is_valid_packet_fast (get_from_buffer_at_offset st offset PACKET_SIZE)

/-- Forced resynchronization (`_force_resync`): jump to a found boundary and
enter SYNCED, else discard `min 16 (count / 2)` bytes and enter SEARCHING. -/
def force_resync (st : UartState) : UartState :=
  match find_packet_boundary st with
  | some boundary_offset =>
      let st := if boundary_offset > 0 then consume_from_buffer st boundary_offset else st
      { st with syncState := .synced, consecutiveInvalid := 0 }
  | none =>
      let discard_count := min 16 (st.bufferCount / 2)
      let st := if discard_count > 0 then consume_from_buffer st discard_count else st
      { st with syncState := .searching }

/-- Sync-loss handling (`_handle_sync_loss`): bump the loss statistic, enter
RECOVERING, clear the valid counter, increment the invalid counter once more,
and force a resync once the invalid counter reaches three. -/
def handle_sync_loss (st : UartState) : UartState :=
  let st := { st with syncLosses := st.syncLosses + 1, syncState := .recovering,
                      consecutiveValid := 0,
                      consecutiveInvalid := st.consecutiveInvalid + 1 }
  if st.consecutiveInvalid ≥ 3 then force_resync st else st

/-- Sync-state update after validating a packet (`_update_sync_state`). -/
def update_sync_state (st : UartState) (packet_valid : Bool) : UartState :=
  if packet_valid then
    let st := { st with consecutiveValid := st.consecutiveValid + 1,
                        consecutiveInvalid := 0 }
    if st.syncState = .recovering ∧ st.consecutiveValid ≥ 2 then
      { st with syncState := .synced }
    else st
  else
    let st := { st with consecutiveValid := 0,
                        consecutiveInvalid := st.consecutiveInvalid + 1 }
    if st.syncState = .synced then handle_sync_loss st else st

/-- Statistics update in the packet-extraction branch of `process_packets`. -/
def update_packet_stats (st : UartState) (valid : Bool) : UartState :=
  { st with packetsProcessed := st.packetsProcessed + 1,
            validPackets := st.validPackets + (if valid then 1 else 0),
            invalidPackets := st.invalidPackets + (if valid then 0 else 1) }

/-- One fuel-indexed unfolding of the `while self.buffer_count >= PACKET_SIZE`
loop of `process_packets`.  In SEARCHING the loop either jumps to a found
boundary and re-enters synced, or discards `min 4 (count - 3)` bytes; in
SYNCED or RECOVERING it peeks one packet, validates it, updates statistics
and sync state, records the `(valid, packet?)` result and consumes four
bytes.  Every iteration strictly decreases `2 * count + (1 when SEARCHING)`,
so fuel `2 * count + 1` always reaches the `count < 4` exit of the source's
loop (`process_packets_fuel_high` below proves the fuel choice immaterial). -/
def process_packets_aux (fuel : Nat) (st : UartState) :
    UartState × List (Bool × Option (List Nat)) :=
  match fuel with
  | 0 => (st, [])
  | fuel + 1 =>
    if st.bufferCount ≥ PACKET_SIZE then
      match st.syncState with
      | .searching =>
        match find_packet_boundary st with
        | some boundary_offset =>
          let st := if boundary_offset > 0 then consume_from_buffer st boundary_offset else st
          process_packets_aux fuel { st with syncState := .synced }
        | none =>
          let discard_count := min PACKET_SIZE (st.bufferCount - PACKET_SIZE + 1)
          process_packets_aux fuel (consume_from_buffer st discard_count)
      | _ =>
        let packet_data := get_from_buffer st PACKET_SIZE
        let valid := (validate_packet packet_data).isSome
        let st := update_packet_stats st valid
        let st := update_sync_state st valid
        let st := consume_from_buffer st PACKET_SIZE
        let rec_result := process_packets_aux fuel st
        (rec_result.1, (valid, if valid then some packet_data else none) :: rec_result.2)
    else (st, [])

/-- Drain all complete packets from the ring (`process_packets`). -/
def process_packets (st : UartState) :
    UartState × List (Bool × Option (List Nat)) :=
  process_packets_aux (2 * st.bufferCount + 1) st

/-- The ring invariant of the claim: full-size backing store, fill level at
most the capacity, and both indices reduced mod 1024. -/
def RingInv (st : UartState) : Prop :=
  st.rxBuffer.length = 1024 ∧ st.bufferCount ≤ 1024
    ∧ st.bufferHead < 1024 ∧ st.bufferTail < 1024

/-- The 4-byte window of a byte stream starting at position `j`. -/
def windowAt (S : List Nat) (j : Nat) : List Nat :=
  (List.range 4).map fun i => S.getD (j + i) 0

/-- State of the handler after buffering a stream `S` from fresh and then
consuming `t` bytes, with no packet processed yet; `sync` is the current
sync state. -/
def midState (S : List Nat) (t : Nat) (sync : SyncState) : UartState :=
  { rxBuffer := S ++ List.replicate (1024 - S.length) 0,
    bufferHead := S.length % 1024, bufferTail := t, bufferCount := S.length - t,
    syncState := sync, consecutiveValid := 0, consecutiveInvalid := 0,
    bufferOverflows := 0, syncLosses := 0, packetsProcessed := 0,
    validPackets := 0, invalidPackets := 0 }

/-- Handler state after the synchronizer has discarded a `t`-byte prefix of
the buffered stream `S` and decoded the one valid packet that follows it. -/
def frameSyncFinal (S : List Nat) (t : Nat) : UartState :=
  { rxBuffer := S ++ List.replicate (1024 - S.length) 0,
    bufferHead := S.length % 1024, bufferTail := t + 4,
    bufferCount := S.length - t - 4,
    syncState := .synced, consecutiveValid := 1, consecutiveInvalid := 0,
    bufferOverflows := 0, syncLosses := 0, packetsProcessed := 1,
    validPackets := 1, invalidPackets := 0 }

/-! ### Adequacy of the loop fuel

Every iteration of the `process_packets` loop strictly decreases
`2 * count + (1 when SEARCHING)`, so any fuel at least that measure — in
particular the `2 * count + 1` used by `process_packets` — computes the full
run of the source's `while` loop. -/

/-- Loop measure of the `process_packets` while loop. -/
def ppMeasure (st : UartState) : Nat :=
  2 * st.bufferCount + (if st.syncState = SyncState.searching then 1 else 0)

/-! ## Theorems -/

set_option maxRecDepth 8192 in
theorem crc8Rounds_leftInv : ∀ x < 256, crc8RoundsInv.getD (crc8Round^[8] x) 0 = x := by
  decide

theorem crc8Rounds_inj {x y : Nat} (hx : x < 256) (hy : y < 256)
    (h : crc8Round^[8] x = crc8Round^[8] y) : x = y := by
  have h1 := crc8Rounds_leftInv x hx
  have h2 := crc8Rounds_leftInv y hy
  rw [h] at h1
  omega

theorem crc8Round_lt (x : Nat) : crc8Round x < 256 := by
  unfold crc8Round
  split <;> exact Nat.lt_succ_of_le (Nat.and_le_right)

theorem crc8Rounds_lt (x : Nat) : crc8Round^[8] x < 256 := by
  rw [show (8 : Nat) = 7 + 1 from rfl, Function.iterate_succ_apply']
  exact crc8Round_lt _

theorem xor_lt_256 {x y : Nat} (hx : x < 256) (hy : y < 256) : x ^^^ y < 256 :=
  Nat.xor_lt_two_pow (n := 8) hx hy

theorem xor_left_cancel {a x y : Nat} (h : a ^^^ x = a ^^^ y) : x = y := by
  have := congrArg (fun z => a ^^^ z) h
  simpa [← Nat.xor_assoc] using this

theorem xor_right_cancel {a x y : Nat} (h : x ^^^ a = y ^^^ a) : x = y := by
  have := congrArg (fun z => z ^^^ a) h
  simpa [Nat.xor_assoc] using this

/-- The packet checksum written out as three applications of the byte map. -/
theorem calculate_checksum_eq (t d0 d1 : Nat) :
    calculate_checksum t d0 d1 =
      crc8Round^[8] (crc8Round^[8] (crc8Round^[8] t ^^^ d0) ^^^ d1) := by
  simp [calculate_checksum, calculate_crc8, crc8Byte]

/-- Changing the `type_flags` byte changes the checksum. -/
theorem checksum_byte0_inj {t t' d0 d1 : Nat} (ht : t < 256) (ht' : t' < 256)
    (h0 : d0 < 256) (h1 : d1 < 256) (hne : t' ≠ t) :
    calculate_checksum t' d0 d1 ≠ calculate_checksum t d0 d1 := by
  rw [calculate_checksum_eq, calculate_checksum_eq]
  intro h
  have s1 : crc8Round^[8] (crc8Round^[8] t' ^^^ d0) ^^^ d1 =
      crc8Round^[8] (crc8Round^[8] t ^^^ d0) ^^^ d1 :=
    crc8Rounds_inj (xor_lt_256 (crc8Rounds_lt _) h1) (xor_lt_256 (crc8Rounds_lt _) h1) h
  have s2 : crc8Round^[8] t' ^^^ d0 = crc8Round^[8] t ^^^ d0 :=
    crc8Rounds_inj (xor_lt_256 (crc8Rounds_lt _) h0) (xor_lt_256 (crc8Rounds_lt _) h0)
      (xor_right_cancel s1)
  exact hne (crc8Rounds_inj ht' ht (xor_right_cancel s2))

/-- Changing the `data0` byte changes the checksum. -/
theorem checksum_byte1_inj {t d0 d0' d1 : Nat} (h0 : d0 < 256) (h0' : d0' < 256)
    (h1 : d1 < 256) (hne : d0' ≠ d0) :
    calculate_checksum t d0' d1 ≠ calculate_checksum t d0 d1 := by
  rw [calculate_checksum_eq, calculate_checksum_eq]
  intro h
  have s1 : crc8Round^[8] t ^^^ d0' = crc8Round^[8] t ^^^ d0 :=
    crc8Rounds_inj (xor_lt_256 (crc8Rounds_lt _) h0') (xor_lt_256 (crc8Rounds_lt _) h0)
      (xor_right_cancel (crc8Rounds_inj (xor_lt_256 (crc8Rounds_lt _) h1)
        (xor_lt_256 (crc8Rounds_lt _) h1) h))
  exact hne (xor_left_cancel s1)

/-- Changing the `data1` byte changes the checksum. -/
theorem checksum_byte2_inj {t d0 d1 d1' : Nat} (h1 : d1 < 256) (h1' : d1' < 256)
    (hne : d1' ≠ d1) :
    calculate_checksum t d0 d1' ≠ calculate_checksum t d0 d1 := by
  rw [calculate_checksum_eq, calculate_checksum_eq]
  intro h
  exact hne (xor_left_cancel (crc8Rounds_inj (xor_lt_256 (crc8Rounds_lt _) h1')
    (xor_lt_256 (crc8Rounds_lt _) h1) h))

/-- Validating a freshly created packet always succeeds and returns the
payload unchanged (shared helper for the codec claims). -/
theorem validate_create (t d0 d1 : Nat) :
    validate_packet (create_packet t d0 d1) =
      some (t, d0, d1, calculate_checksum t d0 d1) := by
  simp [validate_packet, create_packet]

/-- C1: packet codec round-trip and single-byte mutation detection — for every
byte triple, `validate_packet (create_packet type_flags data0 data1)` returns
valid with exactly the same `(type_flags, data0, data1)`, and changing any
single one of the four packet bytes to a different byte value makes
`validate_packet` return invalid (so every single-byte mutation is detected,
which settles the spec's `> 99.6%` detection bound). -/
theorem C1_codec_roundtrip_and_single_byte_detection
    (t d0 d1 : Nat) (ht : t < 256) (h0 : d0 < 256) (h1 : d1 < 256) :
    validate_packet (create_packet t d0 d1)
        = some (t, d0, d1, calculate_checksum t d0 d1)
    ∧ ∀ i, i < 4 → ∀ v, v < 256 → v ≠ (create_packet t d0 d1).getD i 0 →
        validate_packet ((create_packet t d0 d1).set i v) = none := by
  refine ⟨validate_create t d0 d1, ?_⟩
  intro i hi v hv hne
  interval_cases i
  · have hne0 : v ≠ t := by simpa [create_packet] using hne
    have hcond : ¬ (calculate_checksum t d0 d1 = calculate_checksum v d0 d1) :=
      fun h => checksum_byte0_inj ht hv h0 h1 hne0 h.symm
    show validate_packet [v, d0, d1, calculate_checksum t d0 d1] = none
    simp only [validate_packet]
    exact if_neg hcond
  · have hne1 : v ≠ d0 := by simpa [create_packet] using hne
    have hcond : ¬ (calculate_checksum t d0 d1 = calculate_checksum t v d1) :=
      fun h => checksum_byte1_inj h0 hv h1 hne1 h.symm
    show validate_packet [t, v, d1, calculate_checksum t d0 d1] = none
    simp only [validate_packet]
    exact if_neg hcond
  · have hne2 : v ≠ d1 := by simpa [create_packet] using hne
    have hcond : ¬ (calculate_checksum t d0 d1 = calculate_checksum t d0 v) :=
      fun h => checksum_byte2_inj h1 hv hne2 h.symm
    show validate_packet [t, d0, v, calculate_checksum t d0 d1] = none
    simp only [validate_packet]
    exact if_neg hcond
  · have hne3 : v ≠ calculate_checksum t d0 d1 := by simpa [create_packet] using hne
    show validate_packet [t, d0, d1, v] = none
    simp only [validate_packet]
    exact if_neg hne3

/-- Witness for C1 at the concrete packet `create_packet 0xC0 0x00 0x00`:
the round-trip succeeds and mutating byte 0 to 0xC1 is rejected. -/
theorem C1_codec_roundtrip_and_single_byte_detection_witness :
    validate_packet (create_packet 0xC0 0x00 0x00)
        = some (0xC0, 0x00, 0x00, calculate_checksum 0xC0 0x00 0x00)
    ∧ validate_packet ((create_packet 0xC0 0x00 0x00).set 0 0xC1) = none :=
  ⟨(C1_codec_roundtrip_and_single_byte_detection 0xC0 0x00 0x00
      (by decide) (by decide) (by decide)).1,
   (C1_codec_roundtrip_and_single_byte_detection 0xC0 0x00 0x00
      (by decide) (by decide) (by decide)).2 0 (by decide) 0xC1
      (by decide) (by decide)⟩

/-- Any successfully parsed LED packet has a 2-bit mode and 2-bit timing. -/
theorem parse_led_packet_bounds {p : List Nat} {led : LedData}
    (h : parse_led_packet p = some led) : led.led_mode < 4 ∧ led.time_value < 4 := by
  unfold parse_led_packet at h
  rcases hv : validate_packet p with _ | ⟨⟨t, d0, d1, c⟩⟩ <;> rw [hv] at h
  · simp at h
  · by_cases hk : t &&& 0xE0 ≠ 0x20
    · simp [hk] at h
    · simp [hk] at h
      rw [← h]
      refine ⟨Nat.lt_succ_of_le ?_, Nat.lt_succ_of_le ?_⟩ <;>
        exact Nat.and_le_right

/-- C10: LED command codec round-trip — for every led id in 0..15, execute
flag, mode in 0..3, 4-bit colour components and 2-bit time value,
`parse_led_packet (create_led_packet …)` returns valid with exactly the same
execute flag, led id, mode, colour triple and time value. -/
theorem C10_led_codec_roundtrip (led_id : Nat) (execute : Bool)
    (mode r4 g4 b4 time_value : Nat) (hl : led_id < 16) (hm : mode < 4)
    (hr : r4 < 16) (hg : g4 < 16) (hb : b4 < 16) (ht : time_value < 4) :
    parse_led_packet (create_led_packet led_id execute mode r4 g4 b4 time_value) =
      some ⟨execute, led_id, mode, (r4, g4, b4), time_value, timing_map time_value⟩ := by
  have htf_kind : ∀ l < 16, ∀ e : Bool,
      (((if e = true then (48 : Nat) else 32) ||| (l &&& 15)) &&& 224) = 32 := by
    decide
  have htf_exec : ∀ l < 16, ∀ e : Bool,
      ((((if e = true then (48 : Nat) else 32) ||| (l &&& 15)) &&& 16) != 0) = e := by
    decide
  have htf_led : ∀ l < 16, ∀ e : Bool,
      (((if e = true then (48 : Nat) else 32) ||| (l &&& 15)) &&& 15) = l := by
    decide
  have hd0r : ∀ r < 16, ∀ g < 16,
      ((((r &&& 0x0F) <<< 4) ||| (g &&& 0x0F)) >>> 4) &&& 0x0F = r := by decide
  have hd0g : ∀ r < 16, ∀ g < 16,
      (((r &&& 0x0F) <<< 4) ||| (g &&& 0x0F)) &&& 0x0F = g := by decide
  have hd1b : ∀ b < 16, ∀ m < 4, ∀ tv < 4,
      (((((b &&& 0x0F) <<< 4) ||| ((m &&& 0x03) <<< 2)) ||| (tv &&& 0x03)) >>> 4) &&& 0x0F
        = b := by decide
  have hd1m : ∀ b < 16, ∀ m < 4, ∀ tv < 4,
      (((((b &&& 0x0F) <<< 4) ||| ((m &&& 0x03) <<< 2)) ||| (tv &&& 0x03)) >>> 2) &&& 0x03
        = m := by decide
  have hd1t : ∀ b < 16, ∀ m < 4, ∀ tv < 4,
      ((((b &&& 0x0F) <<< 4) ||| ((m &&& 0x03) <<< 2)) ||| (tv &&& 0x03)) &&& 0x03
        = tv := by decide
  simp [create_led_packet, parse_led_packet, validate_create,
    htf_kind led_id hl execute, htf_exec led_id hl execute, htf_led led_id hl execute,
    hd0r r4 hr g4 hg, hd0g r4 hr g4 hg,
    hd1b b4 hb mode hm time_value ht, hd1m b4 hb mode hm time_value ht,
    hd1t b4 hb mode hm time_value ht]

/-- Witness for C10 at a concrete command: led 3, execute, blink, colour
`(15, 0, 7)`, time 2. -/
theorem C10_led_codec_roundtrip_witness :
    parse_led_packet (create_led_packet 3 true 1 15 0 7 2) =
      some ⟨true, 3, 1, (15, 0, 7), 2, timing_map 2⟩ :=
  C10_led_codec_roundtrip 3 true 1 15 0 7 2 (by decide) (by decide) (by decide)
    (by decide) (by decide) (by decide)

/-- C6 counterexample: the claim says the 2-bit time field selects the
animation step delay from the table {100, 200, 500, 1000} ms in the animation
the executor actually runs; but for `time_value = 2` the queued blink command
carries `delay_ms = 300` (the executor computes `(t + 1) * 100`), not the
claimed 500 ms — the {100, 200, 500, 1000} table only feeds the unused
`delay_ms` field of `parse_led_packet`. -/
theorem C6_led_timing_counterexample :
    (process_led_packet (create_led_packet 0 false 1 15 0 0 2)).queued.map
        QueuedCommand.delay_ms = [300]
    ∧ timing_map 2 = 500 ∧ (300 : Nat) ≠ 500 := by decide

/-- C6 amended: for every LED command that the executor animates (blink, fade
or rainbow), the animation step delay of the queued command is
`(time_value + 1) * 100` ms, i.e. the table {100, 200, 300, 400} indexed by
the 2-bit time field; `parse_led_packet`'s own `delay_ms` field uses the
{100, 200, 500, 1000} table but is never passed to the executor. -/
theorem C6_led_timing_amended (p : List Nat) (led : LedData)
    (h : parse_led_packet p = some led) (hmode : led.led_mode ≠ 0) :
    (process_led_packet p).queued.map QueuedCommand.delay_ms
        = [(led.time_value + 1) * 100]
    ∧ [100, 200, 300, 400].getD led.time_value 0 = (led.time_value + 1) * 100 := by
  obtain ⟨hm4, ht4⟩ := parse_led_packet_bounds h
  constructor
  · unfold process_led_packet
    rw [h]
    interval_cases hmv : led.led_mode <;>
      simp_all [add_to_queue]
  · interval_cases hv : led.time_value <;> decide

/-- Witness for C6 amended at a concrete fade command with time 3. -/
theorem C6_led_timing_amended_witness :
    (process_led_packet (create_led_packet 1 false 2 0 0 0 3)).queued.map
        QueuedCommand.delay_ms = [400]
    ∧ [100, 200, 300, 400].getD 3 0 = 400 :=
  C6_led_timing_amended (create_led_packet 1 false 2 0 0 0 3)
    ⟨false, 1, 2, (0, 0, 0), 3, timing_map 3⟩ (by decide) (by decide)

/-- C5 counterexample: the claim says the total number of acknowledgment
packets equals the number of execute triggers; but a single blink command
with the execute flag set produces two acknowledgments (the animation run's
completion-callback ack plus the inline execute ack), and a blink command
without the execute flag still runs the animation and produces one ack for
zero triggers. -/
theorem C5_led_ack_counterexample :
    (process_led_packet (create_led_packet 3 true 1 15 0 0 0)).acks.length = 2
    ∧ (process_led_packet (create_led_packet 3 false 1 15 0 0 0)).acks.length = 1
    ∧ (2 : Nat) ≠ 1 ∧ (1 : Nat) ≠ 0 := by decide

/-- C5 amended: for every valid LED command packet, the number of
acknowledgment packets emitted by the handler equals (one if the mode is an
animation mode — blink, fade or rainbow — else zero) plus (one if the execute
flag is set else zero); so acks = #animation-mode commands + #execute
triggers, not #execute triggers. -/
theorem C5_led_ack_amended (p : List Nat) (led : LedData)
    (h : parse_led_packet p = some led) :
    (process_led_packet p).acks.length =
      (if led.led_mode = 0 then 0 else 1) + (if led.execute then 1 else 0) := by
  obtain ⟨hm4, _⟩ := parse_led_packet_bounds h
  unfold process_led_packet
  rw [h]
  interval_cases hmv : led.led_mode <;> cases hex : led.execute <;>
    simp_all

/-- Witness for C5 amended at a concrete rainbow command with execute set. -/
theorem C5_led_ack_amended_witness :
    (process_led_packet (create_led_packet 2 true 3 0 0 0 1)).acks.length =
      (if (3 : Nat) = 0 then 0 else 1) + (if true then 1 else 0) :=
  C5_led_ack_amended (create_led_packet 2 true 3 0 0 0 1)
    ⟨true, 2, 3, (0, 0, 0), 1, timing_map 1⟩ (by decide)

/-- C3 counterexample: the claim's ping packet `C0 00 00 C7` is not CRC-valid
under the firmware's CRC8 (the valid ping is `C0 00 00 8D`), and the reply to
a valid ping is the ping packet `C0 00 00 8D` again — not the claimed pong
`C0 01 00 C6`, and also not the pong `create_system_pong_packet` would build
(`C0 01 00 98`). -/
theorem C3_ping_pong_counterexample :
    validate_packet [0xC0, 0x00, 0x00, 0xC7] = none
    ∧ process_system_packet (create_packet 0xC0 0x00 0x00) = [[0xC0, 0x00, 0x00, 0x8D]]
    ∧ create_system_pong_packet = [0xC0, 0x01, 0x00, 0x98]
    ∧ ([[0xC0, 0x00, 0x00, 0x8D]] : List (List Nat)) ≠ [[0xC0, 0x01, 0x00, 0xC6]]
    ∧ ([[0xC0, 0x00, 0x00, 0x8D]] : List (List Nat)) ≠ [[0xC0, 0x01, 0x00, 0x98]] := by
  decide

/-- C3 amended: whenever a CRC-valid SYSTEM ping packet (bytes `C0 00 00 8D`)
is received, the firmware emits exactly one reply: the SYSTEM packet
`C0 00 00 8D` built by `create_system_ping_packet` (sub-command 0,
`data0 = 0x00`, `data1 = 0x00`, correct CRC8). -/
theorem C3_ping_reply_amended (p : List Nat)
    (h : parse_system_packet p = some SystemCommand.ping) :
    process_system_packet p = [[0xC0, 0x00, 0x00, 0x8D]] := by
  unfold process_system_packet
  rw [h]
  decide

/-- Witness for C3 amended at the concrete valid ping packet. -/
theorem C3_ping_reply_amended_witness :
    process_system_packet (create_packet 0xC0 0x00 0x00) = [[0xC0, 0x00, 0x00, 0x8D]] :=
  C3_ping_reply_amended (create_packet 0xC0 0x00 0x00) (by decide)

/-- C4 counterexample: the claim says exactly four metric packets are emitted
for a `request_all` packet — no more and no fewer; but the handler both
executes the command inline (four packets) and submits the same command as a
HIGH-priority task which emits four more when it runs, for a total of eight. -/
theorem C4_power_reply_counterexample :
    ((process_power_packet ⟨250, 80, 250, 3700⟩ (create_packet 0x5F 0x00 0x00)).inlineSent
      ++ (process_power_packet ⟨250, 80, 250, 3700⟩
            (create_packet 0x5F 0x00 0x00)).taskSent).length = 8
    ∧ (8 : Nat) ≠ 4 := by decide

/-- C4 amended: for every received POWER `request_all` packet (sub-code
0x1F), each execution of the power-command handler emits exactly four metric
packets in the order current (sub 0x10), battery (0x11), temperature (0x12),
voltage (0x13), each carrying its 16-bit value little-endian with `data0` the
low byte and `data1` the high byte; the handler runs once inline and is
submitted once more to the task manager, so the four-packet sequence is
emitted twice in total. -/
theorem C4_power_reply_amended (metrics : PowerMetrics) (d0 d1 : Nat) :
    process_power_packet metrics (create_packet 0x5F d0 d1) =
      ⟨[create_packet 0x50 (metrics.current_ma &&& 0xFF)
          ((metrics.current_ma >>> 8) &&& 0xFF),
        create_packet 0x51 (metrics.battery_percent &&& 0xFF)
          ((metrics.battery_percent >>> 8) &&& 0xFF),
        create_packet 0x52 (metrics.temperature_0_1c &&& 0xFF)
          ((metrics.temperature_0_1c >>> 8) &&& 0xFF),
        create_packet 0x53 (metrics.voltage_mv &&& 0xFF)
          ((metrics.voltage_mv >>> 8) &&& 0xFF)],
       [create_packet 0x50 (metrics.current_ma &&& 0xFF)
          ((metrics.current_ma >>> 8) &&& 0xFF),
        create_packet 0x51 (metrics.battery_percent &&& 0xFF)
          ((metrics.battery_percent >>> 8) &&& 0xFF),
        create_packet 0x52 (metrics.temperature_0_1c &&& 0xFF)
          ((metrics.temperature_0_1c >>> 8) &&& 0xFF),
        create_packet 0x53 (metrics.voltage_mv &&& 0xFF)
          ((metrics.voltage_mv >>> 8) &&& 0xFF)]⟩ := by
  have e1 : (95 : Nat) &&& 224 = 64 := by decide
  have e2 : (95 : Nat) &&& 31 = 31 := by decide
  have e3 : (64 : Nat) ||| (16 &&& 31) = 80 := by decide
  have e4 : (64 : Nat) ||| (17 &&& 31) = 81 := by decide
  have e5 : (64 : Nat) ||| (18 &&& 31) = 82 := by decide
  have e6 : (64 : Nat) ||| (19 &&& 31) = 83 := by decide
  simp [process_power_packet, parse_power_packet, validate_create,
    execute_power_command, create_power_metrics_packet_rp2040_to_som,
    e1, e2, e3, e4, e5, e6]

/-- C2 counterexample: the claim requires both `initialized ⇒ mux=1` and
`¬initialized ⇒ mux=0` in every reachable state, but the state with the mux
driven high and the SPI pins not initialized is reachable — it occurs between
`einkMux.high()` and the SPI setup, and again between `de_init()` and the
final `einkMux.low()` — and it violates the second implication. -/
theorem C2_display_bus_counterexample :
    (⟨true, false⟩ : EinkBusState) ∈ einkReachableStates
    ∧ (⟨true, false⟩ : EinkBusState).spiOn = false
    ∧ (⟨true, false⟩ : EinkBusState).mux = true := by decide

/-- C2 amended: in every reachable state of the firmware's display flow
(boot, boot animation, release, host-owned, and the asset-load-failure path,
which performs the same de-init and mux-low actions), the MCU's e-ink SPI
pins are initialized only while the mux line is driven high
(`initialized ⇒ mux=1`), so the two SPI bus masters are never simultaneously
enabled; the converse implication `¬initialized ⇒ mux=0` does not hold in the
two transitional states around SPI setup and teardown. -/
theorem C2_display_bus_safety_amended (s : EinkBusState)
    (hs : s ∈ einkReachableStates) : s.spiOn = true → s.mux = true := by
  fin_cases hs <;> decide

/-- Witness for C2 amended at the animation state (mux high, SPI on). -/
theorem C2_display_bus_safety_amended_witness :
    (⟨true, true⟩ : EinkBusState).mux = true :=
  C2_display_bus_safety_amended ⟨true, true⟩ (by decide) (by decide)

theorem ringInv_addByte {st : UartState} (h : RingInv st) (b : Nat) :
    RingInv (addByteToBuffer st b) := by
  obtain ⟨h1, h2, h3, h4⟩ := h
  unfold RingInv addByteToBuffer force_buffer_flush MAX_BUFFER_SIZE
  split <;> dsimp only <;>
    exact ⟨by simpa using h1, by omega, Nat.mod_lt _ (by omega), by omega⟩

theorem ringInv_add_to_buffer {st : UartState} (h : RingInv st) (data : List Nat) :
    RingInv (add_to_buffer st data) := by
  induction data generalizing st with
  | nil => exact h
  | cons b rest ih => exact ih (ringInv_addByte h b)

theorem ringInv_consume {st : UartState} (h : RingInv st) (n : Nat) :
    RingInv (consume_from_buffer st n) := by
  obtain ⟨h1, h2, h3, h4⟩ := h
  unfold RingInv consume_from_buffer MAX_BUFFER_SIZE
  dsimp only
  exact ⟨h1, by omega, h3, Nat.mod_lt _ (by omega)⟩

theorem ringInv_flush {st : UartState} (h : RingInv st) :
    RingInv (force_buffer_flush st) := by
  obtain ⟨h1, h2, h3, h4⟩ := h
  unfold RingInv force_buffer_flush
  dsimp only
  exact ⟨h1, by omega, by omega, by omega⟩

/-- C9: every ring operation (push, peek, consume, flush) preserves
`0 ≤ count ≤ 1024` with head and tail always reduced mod 1024; a push
arriving when `count = 1024` increments the overflow counter, resets
head = tail = count = 0 and sets the sync state to SEARCHING, and the byte
pushed after that flush is stored normally at slot 0 (head becomes 1,
count becomes 1), so subsequent pushes succeed and no index goes out of
bounds. -/
theorem C9_ring_invariant_and_overflow (st : UartState) (h : RingInv st) :
    (∀ data, RingInv (add_to_buffer st data))
    ∧ (∀ n, RingInv (consume_from_buffer st n))
    ∧ RingInv (force_buffer_flush st)
    ∧ (∀ n, (get_from_buffer st n).length = min n st.bufferCount)
    ∧ (st.bufferCount = 1024 → ∀ b,
        (add_to_buffer st [b]).bufferOverflows = st.bufferOverflows + 1
        ∧ (add_to_buffer st [b]).bufferHead = 1
        ∧ (add_to_buffer st [b]).bufferTail = 0
        ∧ (add_to_buffer st [b]).bufferCount = 1
        ∧ (add_to_buffer st [b]).syncState = .searching
        ∧ (add_to_buffer st [b]).rxBuffer.getD 0 0 = b) := by
  refine ⟨ringInv_add_to_buffer h, ringInv_consume h, ringInv_flush h, ?_, ?_⟩
  · intro n
    simp [get_from_buffer]
  · intro hfull b
    have hov : st.bufferCount ≥ MAX_BUFFER_SIZE := by
      simp [MAX_BUFFER_SIZE, hfull]
    have hstep : add_to_buffer st [b] = addByteToBuffer st b := rfl
    rw [hstep]
    unfold addByteToBuffer
    rw [if_pos hov]
    unfold force_buffer_flush
    dsimp only
    refine ⟨rfl, rfl, rfl, rfl, rfl, ?_⟩
    rcases hrx : st.rxBuffer with _ | ⟨x, rest⟩
    · exfalso
      have hlen := h.1
      rw [hrx] at hlen
      simp at hlen
    · rfl

/-- Witness for C9: the invariant holds after pushing a byte into a full
ring starting from the fresh handler state, and the overflow push stores the
byte at slot 0 with the documented counter and index values. -/
theorem C9_ring_invariant_and_overflow_witness :
    RingInv (add_to_buffer { initialUartState with bufferCount := 1024 } [7])
    ∧ (add_to_buffer { initialUartState with bufferCount := 1024 } [9]).bufferOverflows
        = ({ initialUartState with bufferCount := 1024 } : UartState).bufferOverflows + 1
    ∧ (add_to_buffer { initialUartState with bufferCount := 1024 } [9]).rxBuffer.getD 0 0 = 9 := by
  have hinv : RingInv ({ initialUartState with bufferCount := 1024 } : UartState) := by
    refine ⟨?_, Nat.le_refl 1024, Nat.lt_of_sub_eq_succ rfl, Nat.lt_of_sub_eq_succ rfl⟩
    have hrx : ({ initialUartState with bufferCount := 1024 } : UartState).rxBuffer
        = List.replicate MAX_BUFFER_SIZE 0 := rfl
    rw [hrx, List.length_replicate]
    rfl
  have T := C9_ring_invariant_and_overflow _ hinv
  exact ⟨T.1 [7], (T.2.2.2.2 rfl 9).1, (T.2.2.2.2 rfl 9).2.2.2.2.2⟩

/-- C7: evaluation of the sync-state machine on three consecutive invalid
packets received while SYNCED (after one valid ping established sync).  The
first invalid packet increments `consecutive_invalid` twice (once in
`_update_sync_state` and once more in `_handle_sync_loss`) and moves to
RECOVERING with the counter at 2, below the `>= 3` resync threshold; the
second and third invalid packets are handled in RECOVERING, where
`_handle_sync_loss` — the only caller of `_force_resync` — is never invoked.
The run therefore ends in RECOVERING with the counter at 4: no forced resync
happens and the state never returns to SEARCHING, contradicting the claim. -/
theorem C7_forced_resync_never_fires :
    (process_packets (add_to_buffer initialUartState
        ([0xC0, 0x00, 0x00, 0x8D] ++ [0x00, 0x00, 0x00, 0x01]
          ++ [0x00, 0x00, 0x00, 0x01] ++ [0x00, 0x00, 0x00, 0x01]))).1.syncState
      = SyncState.recovering
    ∧ (process_packets (add_to_buffer initialUartState
        ([0xC0, 0x00, 0x00, 0x8D] ++ [0x00, 0x00, 0x00, 0x01]
          ++ [0x00, 0x00, 0x00, 0x01] ++ [0x00, 0x00, 0x00, 0x01]))).1.consecutiveInvalid
      = 4
    ∧ (process_packets (add_to_buffer initialUartState
        ([0xC0, 0x00, 0x00, 0x8D] ++ [0x00, 0x00, 0x00, 0x01]
          ++ [0x00, 0x00, 0x00, 0x01] ++ [0x00, 0x00, 0x00, 0x01]))).1.syncLosses
      = 1
    ∧ (process_packets (add_to_buffer initialUartState
        ([0xC0, 0x00, 0x00, 0x8D] ++ [0x00, 0x00, 0x00, 0x01]
          ++ [0x00, 0x00, 0x00, 0x01] ++ [0x00, 0x00, 0x00, 0x01]))).2
      = [(true, some [0xC0, 0x00, 0x00, 0x8D]), (false, none), (false, none), (false, none)] := by
  decide

/-- C8 counterexample: the claim quantifies over arbitrary prefixes, but a
prefix that itself contains a CRC-valid window defeats it.  With the prefix
`C0 00 00 8D` (4 bytes, well within 64) followed by the valid packet
`C0 01 00 98`, the synchronizer yields TWO packets — the prefix bytes are
decoded as a packet instead of being discarded — so it neither yields exactly
the trailing packet nor discards exactly the prefix. -/
theorem C8_frame_sync_counterexample :
    (process_packets (add_to_buffer initialUartState
        ([0xC0, 0x00, 0x00, 0x8D] ++ [0xC0, 0x01, 0x00, 0x98]))).2
      = [(true, some [0xC0, 0x00, 0x00, 0x8D]), (true, some [0xC0, 0x01, 0x00, 0x98])]
    ∧ ([(true, some [0xC0, 0x00, 0x00, 0x8D]),
        (true, some [0xC0, 0x01, 0x00, 0x98])] : List (Bool × Option (List Nat))).length ≠ 1
    ∧ (process_packets (add_to_buffer initialUartState
        ([0xC0, 0x00, 0x00, 0x8D] ++ [0xC0, 0x01, 0x00, 0x98]))).1.bufferTail = 8 := by
  decide

/-! ### Generic frame-synchronizer progress

Support lemmas for the amended C8: concrete descriptions of the handler state
while the SEARCHING loop walks over a freshly buffered stream. -/

theorem find?_append_none {p : Nat → Bool} {l₁ : List Nat} (l₂ : List Nat)
    (h : l₁.find? p = none) : (l₁ ++ l₂).find? p = l₂.find? p := by
  induction l₁ with
  | nil => rfl
  | cons x xs ih =>
    cases hp : p x with
    | true =>
      rw [List.find?_cons_of_pos _ hp] at h
      simp at h
    | false =>
      have hp' : ¬ p x = true := by simp [hp]
      rw [List.find?_cons_of_neg _ hp'] at h
      rw [List.cons_append, List.find?_cons_of_neg _ hp']
      exact ih h

theorem find?_append_some {p : Nat → Bool} {l₁ : List Nat} (l₂ : List Nat) {a : Nat}
    (h : l₁.find? p = some a) : (l₁ ++ l₂).find? p = some a := by
  induction l₁ with
  | nil => simp at h
  | cons x xs ih =>
    cases hp : p x with
    | true =>
      rw [List.find?_cons_of_pos _ hp] at h
      rw [List.cons_append, List.find?_cons_of_pos _ hp]
      exact h
    | false =>
      have hp' : ¬ p x = true := by simp [hp]
      rw [List.find?_cons_of_neg _ hp'] at h
      rw [List.cons_append, List.find?_cons_of_neg _ hp']
      exact ih h

theorem find?_range_eq_none {p : Nat → Bool} {m : Nat}
    (hall : ∀ j, j < m → p j = false) : (List.range m).find? p = none := by
  rw [List.find?_eq_none]
  intro x hx
  rw [List.mem_range] at hx
  simp [hall x hx]

theorem find?_range_eq_some {p : Nat → Bool} {m k : Nat} (hk : k < m)
    (hpk : p k = true) (hlow : ∀ j, j < k → p j = false) :
    (List.range m).find? p = some k := by
  induction m with
  | zero => omega
  | succ m ih =>
    rw [List.range_succ]
    rcases Nat.lt_or_ge k m with hkm | hkm
    · exact find?_append_some _ (ih hkm)
    · have hkeq : k = m := by omega
      subst hkeq
      rw [find?_append_none _ (find?_range_eq_none hlow)]
      exact List.find?_cons_of_pos _ hpk

/-- The window at the start of the appended packet is the packet itself. -/
theorem windowAt_append (junkBytes pkt : List Nat) (hp4 : pkt.length = 4) :
    windowAt (junkBytes ++ pkt) junkBytes.length = pkt := by
  rcases pkt with _ | ⟨a, _ | ⟨b, _ | ⟨c, _ | ⟨d, _ | _⟩⟩⟩⟩ <;> simp at hp4
  have hget : ∀ i, (junkBytes ++ [a, b, c, d]).getD (junkBytes.length + i) 0
      = [a, b, c, d].getD i 0 := by
    intro i
    rw [List.getD_append_right _ _ _ _ (by omega)]
    congr 1
    omega
  unfold windowAt
  have hr : List.range 4 = [0, 1, 2, 3] := rfl
  rw [hr]
  dsimp only [List.map]
  rw [hget 0, hget 1, hget 2, hget 3]
  rfl

theorem midState_setSync (S : List Nat) (t : Nat) (s s' : SyncState) :
    ({ midState S t s with syncState := s' } : UartState) = midState S t s' := rfl

theorem set_append_len (T rest : List Nat) (b : Nat) :
    (T ++ rest).set T.length b = T ++ rest.set 0 b := by
  induction T with
  | nil => rfl
  | cons x xs ih => simp [List.set, ih]

/-- Buffering a stream into the fresh handler stores it at the front of the
ring: bytes `0..|S|-1` of `rx_buffer` are the stream, head advances to `|S|`,
tail stays 0 and the fill level is `|S|`. -/
theorem add_to_buffer_fresh (S : List Nat) (hS : S.length ≤ 1024) :
    add_to_buffer initialUartState S = midState S 0 SyncState.searching := by
  suffices haux : ∀ (S T : List Nat), T.length + S.length ≤ 1024 →
      add_to_buffer (midState T 0 SyncState.searching) S
        = midState (T ++ S) 0 SyncState.searching by
    have h0 : initialUartState = midState [] 0 SyncState.searching := rfl
    rw [h0, haux S [] (by simpa using hS)]
    simp only [List.nil_append]
  intro S
  induction S with
  | nil =>
    intro T _
    simp [add_to_buffer]
  | cons b rest ih =>
    intro T hlen
    have hTlt : T.length < 1024 := by
      simp only [List.length_cons] at hlen
      omega
    have hstep : addByteToBuffer (midState T 0 SyncState.searching) b
        = midState (T ++ [b]) 0 SyncState.searching := by
      unfold addByteToBuffer midState MAX_BUFFER_SIZE
      dsimp only
      rw [if_neg (by omega)]
      have hmod : T.length % 1024 = T.length := Nat.mod_eq_of_lt hTlt
      rw [hmod]
      have hrep : (1024 - T.length) = (1024 - (T ++ [b]).length) + 1 := by
        simp only [List.length_append, List.length_cons, List.length_nil]
        omega
      simp only [UartState.mk.injEq]
      refine ⟨?_, ?_, trivial, ?_, trivial, trivial, trivial, trivial, trivial,
        trivial, trivial, trivial⟩
      · rw [hrep, List.replicate_succ, set_append_len]
        simp only [List.set_cons_zero, List.append_assoc, List.cons_append,
          List.nil_append]
      · simp only [List.length_append, List.length_cons, List.length_nil]
      · simp only [List.length_append, List.length_cons, List.length_nil]
        omega
    calc add_to_buffer (midState T 0 SyncState.searching) (b :: rest)
        = add_to_buffer (addByteToBuffer (midState T 0 SyncState.searching) b) rest := rfl
      _ = add_to_buffer (midState (T ++ [b]) 0 SyncState.searching) rest := by rw [hstep]
      _ = midState ((T ++ [b]) ++ rest) 0 SyncState.searching :=
          ih (T ++ [b]) (by simp at hlen ⊢; omega)
      _ = midState (T ++ b :: rest) 0 SyncState.searching := by simp

theorem get_offset_window (S : List Nat) (t off : Nat) (sync : SyncState)
    (hS : S.length ≤ 1024) (hb : t + off + 4 ≤ S.length) :
    get_from_buffer_at_offset (midState S t sync) off 4 = windowAt S (t + off) := by
  unfold get_from_buffer_at_offset midState windowAt MAX_BUFFER_SIZE
  dsimp only
  rw [if_neg (by omega)]
  apply List.map_congr_left
  intro a ha
  rw [List.mem_range] at ha
  have hidx : t + off + a < S.length := by omega
  rw [Nat.mod_eq_of_lt (by omega), List.getD_append _ _ _ _ hidx]

theorem get_front_window (S : List Nat) (t : Nat) (sync : SyncState)
    (hS : S.length ≤ 1024) (hb : t + 4 ≤ S.length) :
    get_from_buffer (midState S t sync) 4 = windowAt S t := by
  unfold get_from_buffer midState windowAt MAX_BUFFER_SIZE
  dsimp only
  rw [Nat.min_eq_left (by omega)]
  apply List.map_congr_left
  intro a ha
  rw [List.mem_range] at ha
  have hidx : t + a < S.length := by omega
  rw [Nat.mod_eq_of_lt (by omega), List.getD_append _ _ _ _ hidx]

theorem consume_midState (S : List Nat) (t k : Nat) (sync : SyncState)
    (hk : t + k ≤ S.length) (hlt : t + k < 1024) :
    consume_from_buffer (midState S t sync) k = midState S (t + k) sync := by
  unfold consume_from_buffer midState MAX_BUFFER_SIZE
  dsimp only
  rw [Nat.min_eq_left (by omega)]
  simp only [UartState.mk.injEq]
  refine ⟨trivial, trivial, ?_, ?_, trivial, trivial, trivial, trivial, trivial,
    trivial, trivial, trivial⟩
  · exact Nat.mod_eq_of_lt hlt
  · omega

theorem validate_some_of_fast {p : List Nat} (h : is_valid_packet_fast p = true) :
    validate_packet p = some (p.getD 0 0, p.getD 1 0, p.getD 2 0, p.getD 3 0) := by
  rcases p with _ | ⟨a, _ | ⟨b, _ | ⟨c, _ | ⟨d, _ | e⟩⟩⟩⟩ <;>
    simp [is_valid_packet_fast] at h
  have hc : d = calculate_checksum a b c := by
    rw [← h]
    rfl
  simp [validate_packet, hc]

theorem aux_terminal (st : UartState) (h : st.bufferCount < 4) (f : Nat) :
    process_packets_aux f st = (st, []) := by
  cases f with
  | zero => rfl
  | succ f =>
    simp only [process_packets_aux]
    rw [if_neg (by unfold PACKET_SIZE; omega)]

theorem boundary_found (S : List Nat) (L t : Nat) (hL : S.length = L + 4)
    (hS : S.length ≤ 1024) (ht : t ≤ L) (hnear : L - t ≤ 63)
    (hjunk : ∀ i, i < L → is_valid_packet_fast (windowAt S i) = false)
    (hvalid : is_valid_packet_fast (windowAt S L) = true) (sync : SyncState) :
    find_packet_boundary (midState S t sync) = some (L - t) := by
  have hcount : (midState S t sync).bufferCount = S.length - t := rfl
  unfold find_packet_boundary PACKET_SIZE SYNC_SEARCH_LIMIT
  rw [hcount]
  rw [if_neg (by omega)]
  rw [show min 64 (S.length - t - 4 + 1) = L - t + 1 from by omega]
  apply find?_range_eq_some (by omega)
  · rw [get_offset_window S t (L - t) sync hS (by omega),
      show t + (L - t) = L from by omega]
    exact hvalid
  · intro j hj
    rw [get_offset_window S t j sync hS (by omega)]
    exact hjunk (t + j) (by omega)

theorem boundary_none_far (S : List Nat) (L t : Nat) (hL : S.length = L + 4)
    (hS : S.length ≤ 1024) (ht : t ≤ L) (hfar : 64 ≤ L - t)
    (hjunk : ∀ i, i < L → is_valid_packet_fast (windowAt S i) = false)
    (sync : SyncState) :
    find_packet_boundary (midState S t sync) = none := by
  have hcount : (midState S t sync).bufferCount = S.length - t := rfl
  unfold find_packet_boundary PACKET_SIZE SYNC_SEARCH_LIMIT
  rw [hcount]
  rw [if_neg (by omega)]
  rw [show min 64 (S.length - t - 4 + 1) = 64 from by omega]
  apply find?_range_eq_none
  intro j hj
  rw [get_offset_window S t j sync hS (by omega)]
  exact hjunk (t + j) (by omega)

theorem synced_packet_step (S : List Nat) (L : Nat) (hL : S.length = L + 4)
    (hSlt : S.length < 1024)
    (hvalid : is_valid_packet_fast (windowAt S L) = true) (f : Nat) :
    process_packets_aux (f + 1) (midState S L SyncState.synced)
      = (frameSyncFinal S L, [(true, some (windowAt S L))]) := by
  have hpkt : get_from_buffer (midState S L SyncState.synced) 4 = windowAt S L :=
    get_front_window S L SyncState.synced (Nat.le_of_lt hSlt) (by omega)
  have hval := validate_some_of_fast hvalid
  have e1 : update_packet_stats (midState S L SyncState.synced) true
      = { rxBuffer := S ++ List.replicate (1024 - S.length) 0,
          bufferHead := S.length % 1024, bufferTail := L,
          bufferCount := S.length - L, syncState := .synced,
          consecutiveValid := 0, consecutiveInvalid := 0, bufferOverflows := 0,
          syncLosses := 0, packetsProcessed := 1, validPackets := 1,
          invalidPackets := 0 } := rfl
  have e2 : update_sync_state
      ({ rxBuffer := S ++ List.replicate (1024 - S.length) 0,
         bufferHead := S.length % 1024, bufferTail := L,
         bufferCount := S.length - L, syncState := .synced,
         consecutiveValid := 0, consecutiveInvalid := 0, bufferOverflows := 0,
         syncLosses := 0, packetsProcessed := 1, validPackets := 1,
         invalidPackets := 0 } : UartState) true
      = { rxBuffer := S ++ List.replicate (1024 - S.length) 0,
          bufferHead := S.length % 1024, bufferTail := L,
          bufferCount := S.length - L, syncState := .synced,
          consecutiveValid := 1, consecutiveInvalid := 0, bufferOverflows := 0,
          syncLosses := 0, packetsProcessed := 1, validPackets := 1,
          invalidPackets := 0 } := rfl
  simp only [process_packets_aux]
  rw [if_pos (show (midState S L SyncState.synced).bufferCount ≥ PACKET_SIZE from by
    show S.length - L ≥ 4
    omega)]
  rw [show (midState S L SyncState.synced).syncState = SyncState.synced from rfl]
  dsimp only
  rw [show (PACKET_SIZE : Nat) = 4 from rfl, hpkt, hval]
  dsimp only [Option.isSome]
  rw [e1, e2]
  unfold consume_from_buffer
  dsimp only
  rw [show min 4 (S.length - L) = 4 from by omega,
    show (L + 4) % MAX_BUFFER_SIZE = L + 4 from
      Nat.mod_eq_of_lt (show L + 4 < MAX_BUFFER_SIZE from by
        show L + 4 < 1024
        omega)]
  rw [aux_terminal _ (by show S.length - L - 4 < 4; omega) f]
  rw [if_pos rfl]
  unfold frameSyncFinal
  rfl

theorem searching_progress (S : List Nat) (L : Nat) (hL : S.length = L + 4)
    (hSlt : S.length < 1024)
    (hjunk : ∀ i, i < L → is_valid_packet_fast (windowAt S i) = false)
    (hvalid : is_valid_packet_fast (windowAt S L) = true) :
    ∀ fuel t, t ≤ L → 2 * (S.length - t) + 1 ≤ fuel →
      process_packets_aux fuel (midState S t SyncState.searching)
        = (frameSyncFinal S L, [(true, some (windowAt S L))]) := by
  intro fuel
  induction fuel with
  | zero =>
    intro t ht hf
    omega
  | succ fuel ih =>
    intro t ht hf
    simp only [process_packets_aux]
    rw [if_pos (show (midState S t SyncState.searching).bufferCount ≥ PACKET_SIZE from by
      show S.length - t ≥ 4
      omega)]
    rw [show (midState S t SyncState.searching).syncState = SyncState.searching from rfl]
    dsimp only
    by_cases hnear : L - t ≤ 63
    · rw [boundary_found S L t hL (by omega) ht hnear hjunk hvalid SyncState.searching]
      dsimp only
      by_cases h0 : L - t > 0
      · rw [if_pos h0]
        rw [consume_midState S t (L - t) SyncState.searching (by omega) (by omega)]
        rw [show t + (L - t) = L from by omega]
        rw [midState_setSync]
        cases fuel with
        | zero => omega
        | succ f => exact synced_packet_step S L hL hSlt hvalid f
      · rw [if_neg h0]
        have htL : t = L := by omega
        rw [htL, midState_setSync]
        cases fuel with
        | zero => omega
        | succ f => exact synced_packet_step S L hL hSlt hvalid f
    · rw [boundary_none_far S L t hL (by omega) ht (by omega) hjunk SyncState.searching]
      dsimp only
      rw [show min PACKET_SIZE
          ((midState S t SyncState.searching).bufferCount - PACKET_SIZE + 1) = 4 from by
        show min 4 (S.length - t - 4 + 1) = 4
        omega]
      rw [consume_midState S t 4 SyncState.searching (by omega) (by omega)]
      exact ih (t + 4) (by omega) (by omega)

/-- C8 amended: starting from an empty ring in SEARCHING, for every prefix of
at most 64 bytes that contains no CRC-valid 4-byte window, followed by one
CRC-valid 4-byte packet, processing the buffered stream yields exactly that
packet as the single valid packet and discards exactly the prefix bytes in
front of it: the final state has consumed precisely prefix-length + 4 bytes
(tail advanced by exactly that, fill level zero) and is SYNCED.  The
no-valid-window side condition is necessary: the counterexample shows a
prefix that itself parses as a packet is decoded, not discarded. -/
theorem C8_frame_sync_progress_amended (junkBytes pkt : List Nat)
    (hlen : junkBytes.length ≤ 64) (hp4 : pkt.length = 4)
    (hvalid : is_valid_packet_fast pkt = true)
    (hjunk : ∀ i, i < junkBytes.length →
      is_valid_packet_fast (windowAt (junkBytes ++ pkt) i) = false) :
    process_packets (add_to_buffer initialUartState (junkBytes ++ pkt))
      = (frameSyncFinal (junkBytes ++ pkt) junkBytes.length, [(true, some pkt)]) := by
  have hL : (junkBytes ++ pkt).length = junkBytes.length + 4 := by simp [hp4]
  have hSlt : (junkBytes ++ pkt).length < 1024 := by omega
  have hwin := windowAt_append junkBytes pkt hp4
  have hmain := searching_progress (junkBytes ++ pkt) junkBytes.length hL hSlt hjunk
    (by rw [hwin]; exact hvalid)
    (2 * ((midState (junkBytes ++ pkt) 0 SyncState.searching).bufferCount) + 1) 0
    (by omega) (Nat.le_refl _)
  rw [hwin] at hmain
  rw [add_to_buffer_fresh _ (by omega)]
  unfold process_packets
  exact hmain

/-- Witness for C8 amended: one junk byte `0x00` (whose only window
`00 C0 00 00` is CRC-invalid) followed by the valid ping packet
`C0 00 00 8D` is decoded as exactly that packet with the one junk byte
discarded. -/
theorem C8_frame_sync_progress_amended_witness :
    process_packets (add_to_buffer initialUartState
        ([0x00] ++ [0xC0, 0x00, 0x00, 0x8D]))
      = (frameSyncFinal ([0x00] ++ [0xC0, 0x00, 0x00, 0x8D]) 1,
         [(true, some [0xC0, 0x00, 0x00, 0x8D])]) :=
  C8_frame_sync_progress_amended [0x00] [0xC0, 0x00, 0x00, 0x8D]
    (by decide) (by decide) (by decide) (by decide)

theorem consume_count (st : UartState) (n : Nat) :
    (consume_from_buffer st n).bufferCount = st.bufferCount - min n st.bufferCount := rfl

theorem consume_count_le (st : UartState) (n : Nat) :
    (consume_from_buffer st n).bufferCount ≤ st.bufferCount := by
  rw [consume_count]
  omega

theorem force_resync_count_le (st : UartState) :
    (force_resync st).bufferCount ≤ st.bufferCount := by
  unfold force_resync
  cases find_packet_boundary st with
  | some off =>
    dsimp only
    split
    · exact consume_count_le st off
    · exact Nat.le_refl _
  | none =>
    dsimp only
    split
    · exact consume_count_le _ _
    · exact Nat.le_refl _

theorem handle_sync_loss_count_le (st : UartState) :
    (handle_sync_loss st).bufferCount ≤ st.bufferCount := by
  unfold handle_sync_loss
  dsimp only
  split
  · exact force_resync_count_le _
  · exact Nat.le_refl _

theorem update_sync_state_count_le (st : UartState) (v : Bool) :
    (update_sync_state st v).bufferCount ≤ st.bufferCount := by
  unfold update_sync_state
  split
  · dsimp only
    split
    · exact Nat.le_refl _
    · exact Nat.le_refl _
  · dsimp only
    split
    · exact handle_sync_loss_count_le _
    · exact Nat.le_refl _

theorem process_packets_aux_fuel_high :
    ∀ n f g st, ppMeasure st ≤ n → n ≤ f → n ≤ g →
      process_packets_aux f st = process_packets_aux g st := by
  intro n
  induction n with
  | zero =>
    intro f g st hm hf hg
    have hc : st.bufferCount < 4 := by
      unfold ppMeasure at hm
      omega
    rw [aux_terminal st hc f, aux_terminal st hc g]
  | succ n ih =>
    intro f g st hm hf hg
    by_cases hc : st.bufferCount < 4
    · rw [aux_terminal st hc f, aux_terminal st hc g]
    · push_neg at hc
      have hge : st.bufferCount ≥ PACKET_SIZE := by
        unfold PACKET_SIZE
        omega
      cases f with
      | zero =>
        exfalso
        unfold ppMeasure at hm
        omega
      | succ f' =>
        cases g with
        | zero =>
          exfalso
          unfold ppMeasure at hm
          omega
        | succ g' =>
          have hfn : n ≤ f' := by omega
          have hgn : n ≤ g' := by omega
          simp only [process_packets_aux]
          rw [if_pos hge, if_pos hge]
          cases hss : st.syncState with
          | searching =>
            have hm1 : 2 * st.bufferCount + 1 ≤ n + 1 := by
              unfold ppMeasure at hm
              rw [hss] at hm
              simpa using hm
            dsimp only
            cases hb : find_packet_boundary st with
            | some off =>
              dsimp only
              refine ih f' g' _ ?_ hfn hgn
              unfold ppMeasure
              have hcle : ((if off > 0 then consume_from_buffer st off else st) :
                  UartState).bufferCount ≤ st.bufferCount := by
                split
                · exact consume_count_le st off
                · exact Nat.le_refl _
              have hsync : (({ (if off > 0 then consume_from_buffer st off else st) with
                  syncState := SyncState.synced } : UartState).syncState
                    = SyncState.synced) := rfl
              rw [hsync]
              have hcnt : (({ (if off > 0 then consume_from_buffer st off else st) with
                  syncState := SyncState.synced } : UartState).bufferCount
                    = ((if off > 0 then consume_from_buffer st off else st) :
                        UartState).bufferCount) := rfl
              rw [hcnt]
              simp only [reduceCtorEq, if_false]
              omega
            | none =>
              dsimp only
              refine ih f' g' _ ?_ hfn hgn
              unfold ppMeasure
              rw [consume_count,
                show (consume_from_buffer st
                  (min PACKET_SIZE (st.bufferCount - PACKET_SIZE + 1))).syncState
                    = st.syncState from rfl, hss]
              unfold PACKET_SIZE at hge ⊢
              simp only [eq_self_iff_true, if_true]
              omega
          | synced =>
            have hm0 : 2 * st.bufferCount ≤ n + 1 := by
              unfold ppMeasure at hm
              rw [hss] at hm
              simpa using hm
            dsimp only
            have hc2 : (update_sync_state (update_packet_stats st
                ((validate_packet (get_from_buffer st PACKET_SIZE)).isSome))
                  ((validate_packet (get_from_buffer st PACKET_SIZE)).isSome)).bufferCount
                ≤ st.bufferCount := update_sync_state_count_le _ _
            have hrec := ih f' g' (consume_from_buffer (update_sync_state
                (update_packet_stats st
                  ((validate_packet (get_from_buffer st PACKET_SIZE)).isSome))
                  ((validate_packet (get_from_buffer st PACKET_SIZE)).isSome)) PACKET_SIZE)
              (by
                unfold ppMeasure
                rw [consume_count]
                have hflag : (if (consume_from_buffer (update_sync_state
                    (update_packet_stats st
                      ((validate_packet (get_from_buffer st PACKET_SIZE)).isSome))
                      ((validate_packet (get_from_buffer st PACKET_SIZE)).isSome))
                        PACKET_SIZE).syncState = SyncState.searching then 1 else 0) ≤ 1 := by
                  split <;> omega
                unfold PACKET_SIZE at *
                omega) hfn hgn
            rw [hrec]
          | recovering =>
            have hm0 : 2 * st.bufferCount ≤ n + 1 := by
              unfold ppMeasure at hm
              rw [hss] at hm
              simpa using hm
            dsimp only
            have hc2 : (update_sync_state (update_packet_stats st
                ((validate_packet (get_from_buffer st PACKET_SIZE)).isSome))
                  ((validate_packet (get_from_buffer st PACKET_SIZE)).isSome)).bufferCount
                ≤ st.bufferCount := update_sync_state_count_le _ _
            have hrec := ih f' g' (consume_from_buffer (update_sync_state
                (update_packet_stats st
                  ((validate_packet (get_from_buffer st PACKET_SIZE)).isSome))
                  ((validate_packet (get_from_buffer st PACKET_SIZE)).isSome)) PACKET_SIZE)
              (by
                unfold ppMeasure
                rw [consume_count]
                have hflag : (if (consume_from_buffer (update_sync_state
                    (update_packet_stats st
                      ((validate_packet (get_from_buffer st PACKET_SIZE)).isSome))
                      ((validate_packet (get_from_buffer st PACKET_SIZE)).isSome))
                        PACKET_SIZE).syncState = SyncState.searching then 1 else 0) ≤ 1 := by
                  split <;> omega
                unfold PACKET_SIZE at *
                omega) hfn hgn
            rw [hrec]

/-- The run computed by `process_packets` agrees with any larger fuel: the
default fuel `2 * count + 1` dominates the loop measure, so the embedding
computes the source loop to its `count < 4` exit. -/
theorem process_packets_eq_aux (st : UartState) (f : Nat)
    (hf : 2 * st.bufferCount + 1 ≤ f) :
    process_packets st = process_packets_aux f st := by
  unfold process_packets
  refine process_packets_aux_fuel_high (2 * st.bufferCount + 1) _ _ st ?_ (Nat.le_refl _) hf
  unfold ppMeasure
  split <;> omega

end PamirSAM
